import Mathlib

/-!
Verification of the ts3warden moderation bot (`src/index.ts`) against its
natural-language specification.  The relevant parts of the program are
shallowly embedded below: the in-memory protection registry
(`protectedUsers : Map<string, Date>`), the text-message command handler,
the periodic idle-move sweep installed with `setInterval`, and the
connection-event handlers.  Time is modelled in milliseconds since the
Unix epoch, as returned by JavaScript `Date.getTime()`.
-/

namespace Ts3Warden

/-- Session-scoped client identifier (`clid`), a string as in the query protocol. -/
abbrev ClientId := String

/-- An instant or duration in milliseconds (JavaScript `Date.getTime()` value). -/
abbrev Timestamp := Int

/-- Channel identifier (`cid`). -/
abbrev ChannelId := Nat

/-- The protection registry `protectedUsers : Map<string, Date>` from line 12,
modelled as an association list in insertion order with unique keys, which is
exactly the observable behaviour of a JavaScript `Map` built by `set`/`delete`. -/
abbrev Registry := List (ClientId × Timestamp)

/-- JavaScript `Map.prototype.has`, the check used at line 130
(`protectedUsers.has(client.clid)`). -/
def Registry.has (m : Registry) (k : ClientId) : Bool :=
  m.any (fun p => p.1 == k)

/-- JavaScript `Map.prototype.set`, the insertion used at line 81
(`protectedUsers.set(...)`): if the key is present its value is updated in
place, otherwise the pair is appended. -/
def Registry.set : Registry → ClientId → Timestamp → Registry
  | [], k, v => [(k, v)]
  | p :: rest, k, v =>
      if p.1 == k then (k, v) :: rest else p :: Registry.set rest k v

/-- `date.subtract(d1, d2).toMinutes()` from the date-and-time library used at
line 111: the exact millisecond difference divided by 60000, as a rational
number (the library performs plain floating-point division, no rounding). -/
def subtractToMinutes (d1 d2 : Timestamp) : ℚ :=
  ((d1 - d2 : Int) : ℚ) / 60000

/-- `date.addHours(d, h)` from the date-and-time library used at line 81. -/
def addHours (d : Timestamp) (h : Int) : Timestamp :=
  d + h * 3600000

/-- The protection-list purge at lines 110-115 of the `setInterval` callback:
`protectedUsers.forEach((v, k) => { if (date.subtract(now, v).toMinutes() > 0)
protectedUsers.delete(k); })`.  Deleting the entry currently visited during
`Map.forEach` is equivalent to filtering; the per-removal log line is not
modelled because it does not affect the registry. -/
def purgeProtectedUsers (now : Timestamp) (m : Registry) : Registry :=
  m.filter (fun p => !(decide (subtractToMinutes now p.2 > 0)))

/-- The `TextMessageTargetMode` enum of ts3-nodejs-library. -/
inductive TextMessageTargetMode where
  | CLIENT
  | CHANNEL
  | SERVER
  deriving DecidableEq, Repr

/-- An inbound `textmessage` event (the fields of `e` read by the handler). -/
structure TextMessageEvent where
  targetmode : TextMessageTargetMode
  invokerClid : ClientId
  invokerNickname : String
  msg : String
  deriving DecidableEq, Repr

/-- A client entry as returned by `teamspeak.clientList` (the fields read by
the sweep). -/
structure Client where
  clid : ClientId
  cid : ChannelId
  idleTime : Int
  nickname : String
  deriving DecidableEq, Repr

/-- A channel as returned by `teamspeak.getChannelByName`. -/
structure Channel where
  cid : ChannelId
  name : String
  deriving DecidableEq, Repr

/-- Observable side effects of the handlers.  `reconnect` records the two
arguments given to `teamspeak.reconnect` (in the library, a negative attempt
count means retry forever); `exitProcess` records the argument of `exit`;
`unhandledRejection` records a promise rejection that no code observes — the
fate of a failing `client.message` call, whose promise is never awaited. -/
inductive Action where
  | logDebug (s : String)
  | logInfo (s : String)
  | logWarn (s : String)
  | logError (s : String)
  | sendMessage (clid : ClientId) (msg : String)
  | unhandledRejection (err : String)
  | move (clid : ClientId) (cid : ChannelId)
  | reconnect (maxAttempts : Int) (delayMs : Int)
  | exitProcess (code : Nat)
  deriving DecidableEq, Repr

/-- Outcome of the underlying `client.message(msg)` call for a given client:
`Except.error e` models the call throwing with error `e`. -/
abbrev SendOutcome := ClientId → Except String Unit

/-- A send function that always succeeds. -/
def sendAlwaysOk : SendOutcome := fun _ => Except.ok ()

/-- A send function that always throws with message "boom". -/
def sendAlwaysFail : SendOutcome := fun _ => Except.error "boom"

/-- `trySendMessage` (lines 164-171): log at debug level, then call
`client.message(msg)` WITHOUT awaiting it.  `client.message` reports failure
by rejecting the promise it returns, and since that promise is never awaited,
a failing send bypasses the enclosing try/catch as an unhandled rejection:
the catch branch and its `logger.warn` are unreachable for send failures
(they could only observe a synchronous throw of the call expression itself,
which the library's promise-returning method does not produce), and no
exception reaches the caller either way. -/
def trySendMessage (send : SendOutcome) (clid : ClientId)
    (nickname msg : String) : List Action :=
  match send clid with
  | Except.ok _ =>
      [Action.logDebug ("Sending message to user " ++ nickname ++ ": " ++ msg),
       Action.sendMessage clid msg]
  | Except.error e =>
      [Action.logDebug ("Sending message to user " ++ nickname ++ ": " ++ msg),
       Action.unhandledRejection e]

/-- The guard of the `textmessage` handler at line 76:
`e.targetmode === TextMessageTargetMode.CLIENT || e.invoker.clid !== me.clientId`. -/
def textmessageReacts (meClientId : ClientId) (e : TextMessageEvent) : Bool :=
  (e.targetmode == TextMessageTargetMode.CLIENT) || (e.invokerClid != meClientId)

/-- JavaScript `String.prototype.startsWith` used at line 78, embedded over
the character sequence of the string. -/
def jsStartsWith (s p : String) : Bool :=
  s.data.take p.data.length == p.data

/-- The acknowledgement text sent after a protection grant (line 83). -/
def protectionAckText : String :=
  "Na gut, ich move dich die naechsten drei Stunden nicht mehr :("

/-- The `textmessage` handler (lines 74-86): when the guard passes and the
message text starts with "!stop", the sender is granted protection until
`addHours(now, 3)` and an acknowledgement is attempted with `trySendMessage`.
Returns the new registry together with the emitted actions. -/
def handleTextmessage (meClientId : ClientId) (now : Timestamp)
    (send : SendOutcome) (m : Registry) (e : TextMessageEvent) :
    Registry × List Action :=
  if textmessageReacts meClientId e then
    if jsStartsWith e.msg "!stop" then
      (Registry.set m e.invokerClid (addHours now 3),
        Action.logDebug ("I saw a message from " ++ e.invokerNickname ++ ": " ++ e.msg) ::
        Action.logInfo ("Got protection request from user " ++ e.invokerNickname ++
          " with ID " ++ e.invokerClid ++ ".") ::
        trySendMessage send e.invokerClid e.invokerNickname protectionAckText)
    else
      (m, [Action.logDebug ("I saw a message from " ++ e.invokerNickname ++ ": " ++ e.msg)])
  else
    (m, [])

/-- The per-client body of the idle-move loop (lines 126-143): skip clients
already in the lobby; otherwise, if the idle time strictly exceeds
`config.moderation.idletime * 60 * 1000` ms, either skip a protected client
(debug log) or notify with `trySendMessage` and move the client to the lobby. -/
def idleMoveActions (idletime : Int) (m : Registry) (lobby : Channel)
    (send : SendOutcome) (c : Client) : List Action :=
  if c.cid != lobby.cid then
    if c.idleTime > idletime * 60 * 1000 then
      if Registry.has m c.clid then
        [Action.logDebug ("User with ID " ++ c.clid ++ " is protected and wont be moved.")]
      else
        Action.logInfo ("Client " ++ c.nickname ++
          " has been idle and will be moved to the Lobby..") ::
        (trySendMessage send c.clid c.nickname
          ("Ey " ++ c.nickname ++ ", idle mal hier nicht rum. Ab in die Lobby mit dir!") ++
         [Action.move c.clid lobby.cid])
    else []
  else []

/-- The whole `setInterval` callback (lines 101-144): purge the protection
list, then look up the lobby channel; if it is absent, log an error and call
`exit(1)` (no client is visited); otherwise run the idle-move loop over the
fetched client list with the purged registry. -/
def setIntervalCallback (idletime : Int) (now : Timestamp) (m : Registry)
    (clients : List Client) (lobbyLookup : Option Channel)
    (send : SendOutcome) : Registry × List Action :=
  let m2 := purgeProtectedUsers now m
  match lobbyLookup with
  | none => (m2, [Action.logError "Unable to find Lobby!", Action.exitProcess 1])
  | some lobby => (m2, clients.foldr (fun c acc => idleMoveActions idletime m2 lobby send c ++ acc) [])

/-- The period passed to `setInterval` at line 144, in milliseconds:
`config.moderation.idletime * 1000`. -/
def setIntervalPeriodMs (idletime : Int) : Int :=
  idletime * 1000

/-- The idle threshold compared against at line 129, in milliseconds:
`config.moderation.idletime * 60 * 1000`. -/
def idleThresholdMs (idletime : Int) : Int :=
  idletime * 60 * 1000

/-- The `close` handler (lines 67-72): log the error and the loss, then call
`teamspeak.reconnect(-1, 1000)` (retry forever, one second between attempts),
then log success. -/
def handleClose (err : String) : List Action :=
  [Action.logWarn err,
   Action.logWarn "Connection lost, trying to reconnect...",
   Action.reconnect (-1) 1000,
   Action.logWarn "Reconnected!"]

/-- The `error` handler (lines 97-99): log only. -/
def handleError (err : String) : List Action :=
  [Action.logError ("Something went wrong: " ++ err)]

/-! Helper lemmas about the registry and the time library -/

lemma subtractToMinutes_pos (d1 d2 : Timestamp) :
    subtractToMinutes d1 d2 > 0 ↔ d2 < d1 := by
  unfold subtractToMinutes
  rw [gt_iff_lt, lt_div_iff₀ (by norm_num), zero_mul, Int.cast_pos, sub_pos]

lemma purgeProtectedUsers_eq_filter (now : Timestamp) (m : Registry) :
    purgeProtectedUsers now m = m.filter (fun p => decide (now ≤ p.2)) := by
  unfold purgeProtectedUsers
  apply List.filter_congr
  intro p _
  rcases le_or_lt now p.2 with h | h
  · simp [subtractToMinutes_pos, h, not_lt.mpr h]
  · simp [subtractToMinutes_pos, h, not_le.mpr h]

lemma Registry.has_iff_mem (m : Registry) (k : ClientId) :
    Registry.has m k = true ↔ ∃ v, (k, v) ∈ m := by
  unfold Registry.has
  rw [List.any_eq_true]
  constructor
  · rintro ⟨⟨a, b⟩, hmem, hbeq⟩
    rcases of_decide_eq_true hbeq with rfl
    exact ⟨b, hmem⟩
  · rintro ⟨v, hmem⟩
    exact ⟨(k, v), hmem, by simp⟩

lemma Registry.lookup_set_self (m : Registry) (k : ClientId) (v : Timestamp) :
    List.lookup k (Registry.set m k v) = some v := by
  induction m with
  | nil => simp [Registry.set, List.lookup]
  | cons p rest ih =>
      by_cases h : p.1 == k
      · simp [Registry.set, h, List.lookup]
      · have h2 : (k == p.1) = false := by
          rcases p with ⟨a, b⟩
          simp at h ⊢
          exact fun hk => h hk.symm
        simp [Registry.set, h, List.lookup, h2, ih]

lemma Registry.set_set (m : Registry) (k : ClientId) (v1 v2 : Timestamp) :
    Registry.set (Registry.set m k v1) k v2 = Registry.set m k v2 := by
  induction m with
  | nil => simp [Registry.set]
  | cons p rest ih =>
      by_cases h : p.1 == k
      · simp [Registry.set, h]
      · simp [Registry.set, h, ih]

lemma Registry.has_set_self (m : Registry) (k : ClientId) (v : Timestamp) :
    Registry.has (Registry.set m k v) k = true := by
  induction m with
  | nil => simp [Registry.set, Registry.has]
  | cons p rest ih =>
      by_cases h : p.1 == k
      · simp [Registry.set, h, Registry.has]
      · simp only [Registry.set, h, if_false, Registry.has, List.any_cons]
        simp only [Registry.has] at ih
        simp [ih]

lemma Registry.has_set_of_has (m : Registry) (k k2 : ClientId) (v : Timestamp)
    (h : Registry.has m k = true) :
    Registry.has (Registry.set m k2 v) k = true := by
  induction m with
  | nil => simp [Registry.has] at h
  | cons p rest ih =>
      by_cases hpk : p.1 == k2
      · rcases of_decide_eq_true hpk with rfl
        simp only [Registry.has, List.any_cons] at h
        rcases Bool.or_eq_true_iff.mp h with h1 | h1
        · simp [Registry.set, Registry.has, h1]
        · simp [Registry.set, Registry.has, h1]
      · simp only [Registry.has, List.any_cons] at h
        rcases Bool.or_eq_true_iff.mp h with h1 | h1
        · simp [Registry.set, hpk, Registry.has, h1]
        · have := ih h1
          simp only [Registry.has] at this
          simp [Registry.set, hpk, Registry.has, this]

lemma Registry.eq_or_has_of_has_set (m : Registry) (k k2 : ClientId) (v : Timestamp)
    (h : Registry.has (Registry.set m k2 v) k = true) :
    k = k2 ∨ Registry.has m k = true := by
  induction m with
  | nil =>
      simp [Registry.set, Registry.has] at h
      exact Or.inl h.symm
  | cons p rest ih =>
      by_cases hpk : p.1 == k2
      · simp only [Registry.set, hpk, if_true, Registry.has, List.any_cons] at h
        rcases Bool.or_eq_true_iff.mp h with h1 | h1
        · exact Or.inl (of_decide_eq_true h1).symm
        · right
          simp [Registry.has, h1]
      · simp only [Registry.set, hpk, if_false, Registry.has, List.any_cons] at h
        rcases Bool.or_eq_true_iff.mp h with h1 | h1
        · right
          simp [Registry.has, h1]
        · rcases ih h1 with h2 | h2
          · exact Or.inl h2
          · right
            simp only [Registry.has] at h2
            simp [Registry.has, h2]

lemma Registry.has_of_has_filter (m : Registry) (p : ClientId × Timestamp → Bool)
    (k : ClientId) (h : Registry.has (m.filter p) k = true) :
    Registry.has m k = true := by
  rcases (Registry.has_iff_mem _ _).mp h with ⟨v, hmem⟩
  exact (Registry.has_iff_mem _ _).mpr ⟨v, (List.mem_filter.mp hmem).1⟩

lemma move_not_mem_trySendMessage (send : SendOutcome) (clid a : ClientId)
    (nickname msg : String) (ch : ChannelId) :
    Action.move a ch ∉ trySendMessage send clid nickname msg := by
  unfold trySendMessage
  cases send clid <;> simp

/-! Definitions following the specification text (for refinement claims) -/

/-- The protection check as the specification words it: true iff an entry for
the queried identity exists and that entry has not yet expired at the query
instant.  To be compared with the check the code actually performs,
`Registry.has` (a bare `Map.has`). -/
def isProtectedSpec (now : Timestamp) (m : Registry) (k : ClientId) : Bool :=
  (List.lookup k m).any (fun v => decide (now ≤ v))

/-- The expiry sweep as the specification words it: remove exactly the entries
whose expiry is less than or equal to `now`.  To be compared with
`purgeProtectedUsers`, the purge the code actually performs. -/
def sweepSpec (now : Timestamp) (m : Registry) : Registry :=
  m.filter (fun p => decide (now < p.2))

/-! Claims -/

/-- Claim C2 fails on the code: with `idletime = 10` the `setInterval` period
is 10000 ms (ten seconds) while the idle threshold is 600000 ms (ten
minutes), so the interval between sweep cycles is not the threshold duration. -/
theorem claim_C2_counterexample :
    setIntervalPeriodMs 10 ≠ idleThresholdMs 10 := by
  decide

/-- Claim C2, amended: the sweep period and the idle threshold are both
derived from the single `idletime` configuration value but with different
units — the period is `idletime * 1000` ms (idletime seconds) while the
threshold is `idletime * 60 * 1000` ms (idletime minutes).  The threshold is
sixty times the period, the two agree only when `idletime = 0`, and the
threshold used by the per-client move decision is exactly `idleThresholdMs`. -/
theorem claim_C2 :
    ∀ idletime : Int,
      idleThresholdMs idletime = 60 * setIntervalPeriodMs idletime ∧
      (setIntervalPeriodMs idletime = idleThresholdMs idletime ↔ idletime = 0) ∧
      (∀ m lobby send c ch, Action.move c.clid ch ∈ idleMoveActions idletime m lobby send c →
        c.idleTime > idleThresholdMs idletime) := by
  intro idletime
  refine ⟨by unfold idleThresholdMs setIntervalPeriodMs; ring, ?_, ?_⟩
  · unfold idleThresholdMs setIntervalPeriodMs
    omega
  · intro m lobby send c ch hmem
    unfold idleMoveActions at hmem
    by_cases h1 : c.cid != lobby.cid
    · rw [if_pos h1] at hmem
      by_cases h2 : c.idleTime > idletime * 60 * 1000
      · exact h2
      · rw [if_neg h2] at hmem
        simp at hmem
    · rw [if_neg h1] at hmem
      simp at hmem

/-- Claim C2 witness: the move decision for a concrete client compares its
idle time against the threshold in milliseconds. -/
theorem claim_C2_witness :
    (⟨"a", 3, 601000, "Al"⟩ : Client).idleTime > idleThresholdMs 10 :=
  (claim_C2 10).2.2 [] ⟨7, "Lobby"⟩ sendAlwaysOk ⟨"a", 3, 601000, "Al"⟩ 7 (by decide)

/-- Claim C4 fails on the code: the protection check used by the sweep is a
bare `Map.has`, which ignores the stored expiry.  On a registry whose only
entry expired at instant 0, queried one hour later, `has` still answers true
while the specified expiry-aware check answers false. -/
theorem claim_C4_counterexample :
    Registry.has [("a", 0)] "a" ≠ isProtectedSpec 3600000 [("a", 0)] "a" := by
  decide

/-- Claim C4, amended: the protection check returns true iff an entry for the
queried identity exists, regardless of its expiry (expired entries only stop
counting once the periodic purge removes them); being a pure membership test
it does not mutate the registry. -/
theorem claim_C4 :
    ∀ (m : Registry) (k : ClientId), Registry.has m k = true ↔ ∃ v, (k, v) ∈ m :=
  Registry.has_iff_mem

/-- Claim C5 fails on the code: the purge deletes an entry only when
`date.subtract(now, expiry).toMinutes() > 0`, i.e. when `expiry < now`
strictly, so an entry whose expiry equals `now` is retained although the
claim says every entry with expiry ≤ now is deleted. -/
theorem claim_C5_counterexample :
    purgeProtectedUsers 5 [("a", 5)] ≠ sweepSpec 5 [("a", 5)] := by
  rw [purgeProtectedUsers_eq_filter]
  decide

/-- Claim C5, amended: the periodic purge removes exactly the entries whose
expiry is strictly before `now`, and retains unchanged (same key, value and
order) every entry with expiry ≥ `now`, including one expiring exactly at
`now`. -/
theorem claim_C5 :
    ∀ (now : Timestamp) (m : Registry),
      purgeProtectedUsers now m = m.filter (fun p => decide (now ≤ p.2)) :=
  purgeProtectedUsers_eq_filter

/-- Claim C1: in a sweep cycle a client is moved to the holding channel iff
its channel differs from the lobby, its idle time strictly exceeds
`idletime * 60 * 1000` ms, and it is not in the protection registry; with a
10-minute threshold a client idle 9:59 (599000 ms) is never moved, an
unprotected client idle 10:01 (601000 ms) outside the lobby is always moved,
and a protected client idle 10:01 is never moved. -/
theorem claim_C1 :
    (∀ idletime m lobby send c ch,
      Action.move c.clid ch ∈ idleMoveActions idletime m lobby send c ↔
        (ch = lobby.cid ∧ c.cid ≠ lobby.cid ∧ c.idleTime > idletime * 60 * 1000 ∧
          Registry.has m c.clid = false)) ∧
    (∀ m lobby send clid cid nick ch,
      Action.move clid ch ∉ idleMoveActions 10 m lobby send ⟨clid, cid, 599000, nick⟩) ∧
    (∀ m lobby send clid cid nick,
      cid ≠ lobby.cid → Registry.has m clid = false →
        Action.move clid lobby.cid ∈ idleMoveActions 10 m lobby send ⟨clid, cid, 601000, nick⟩) ∧
    (∀ (m : Registry) lobby send clid cid nick ch,
      Registry.has m clid = true →
        Action.move clid ch ∉ idleMoveActions 10 m lobby send ⟨clid, cid, 601000, nick⟩) := by
  have key : ∀ idletime m lobby send c ch,
      Action.move c.clid ch ∈ idleMoveActions idletime m lobby send c ↔
        (ch = lobby.cid ∧ c.cid ≠ lobby.cid ∧ c.idleTime > idletime * 60 * 1000 ∧
          Registry.has m c.clid = false) := by
    intro idletime m lobby send c ch
    rcases eq_or_ne c.cid lobby.cid with h1 | h1
    · simp [idleMoveActions, h1]
    · rcases lt_or_le (idletime * 60 * 1000) c.idleTime with h2 | h2
      · cases h3 : Registry.has m c.clid with
        | true => simp [idleMoveActions, h1, h2, h3]
        | false =>
            have hb : (c.cid != lobby.cid) = true := bne_iff_ne.mpr h1
            unfold idleMoveActions
            rw [if_pos hb, if_pos h2, if_neg (by simp [h3])]
            constructor
            · intro hmem
              rcases List.mem_cons.mp hmem with h | h
              · simp at h
              · rcases List.mem_append.mp h with h | h
                · exact absurd h (move_not_mem_trySendMessage _ _ _ _ _ _)
                · have h := List.mem_singleton.mp h
                  simp only [Action.move.injEq] at h
                  exact ⟨h.2, h1, h2, rfl⟩
            · rintro ⟨rfl, _, _, _⟩
              exact List.mem_cons_of_mem _
                (List.mem_append_right _ (List.mem_singleton.mpr rfl))
      · simp [idleMoveActions, h1, not_lt.mpr h2]
  refine ⟨key, ?_, ?_, ?_⟩
  · intro m lobby send clid cid nick ch hmem
    have h := ((key 10 m lobby send ⟨clid, cid, 599000, nick⟩ ch).mp hmem).2.2.1
    norm_num at h
  · intro m lobby send clid cid nick h1 h2
    exact (key 10 m lobby send ⟨clid, cid, 601000, nick⟩ lobby.cid).mpr
      ⟨rfl, h1, by norm_num, h2⟩
  · intro m lobby send clid cid nick ch hhas hmem
    have h := ((key 10 m lobby send ⟨clid, cid, 601000, nick⟩ ch).mp hmem).2.2.2
    rw [hhas] at h
    exact Bool.true_eq_false.mp h

/-- Claim C1 witness: a concrete unprotected client idle 601000 ms in channel
3 is moved to the lobby channel 7 under a 10-minute threshold. -/
theorem claim_C1_witness :
    Action.move "a" 7 ∈ idleMoveActions 10 [] ⟨7, "Lobby"⟩ sendAlwaysOk ⟨"a", 3, 601000, "Al"⟩ :=
  claim_C1.2.2.1 [] ⟨7, "Lobby"⟩ sendAlwaysOk "a" 3 "Al" (by decide) (by decide)

/-- Claim C3 is contradicted by the code: the guard at line 76 is
`targetmode === CLIENT || invoker.clid !== me.clientId`, so a direct
(CLIENT-targetmode) "!stop" message from the bot itself passes the filter and
is processed as a command — the bot grants protection to its own identity —
while a self message with a non-direct target mode is ignored.  Both
directions are the inverse of the claimed filter, and the processed case
contradicts the code comment at line 75 saying the bot itself is skipped. -/
theorem claim_C3 :
    textmessageReacts "bot" ⟨TextMessageTargetMode.CLIENT, "bot", "warden", "!stop"⟩ = true ∧
    Registry.has (handleTextmessage "bot" 0 sendAlwaysOk []
      ⟨TextMessageTargetMode.CLIENT, "bot", "warden", "!stop"⟩).1 "bot" = true ∧
    textmessageReacts "bot" ⟨TextMessageTargetMode.SERVER, "bot", "warden", "!stop"⟩ = false := by
  decide

/-- Claim C6: a reacted-to message starting with "!stop" overwrites the
registry entry of the sender with expiry `now + 3` hours (10800000 ms); granting
twice yields the same registry as granting once at the later time (replace,
not stack); the grant always succeeds (the sender is protected immediately
afterwards); and the handler attempts the acknowledgement reply through
`trySendMessage`. -/
theorem claim_C6 :
    ∀ meClientId now t1 t2 send m e,
      textmessageReacts meClientId e = true →
      jsStartsWith e.msg "!stop" = true →
      ((handleTextmessage meClientId now send m e).1 =
          Registry.set m e.invokerClid (now + 3 * 3600000)) ∧
      (List.lookup e.invokerClid (handleTextmessage meClientId now send m e).1 =
          some (now + 3 * 3600000)) ∧
      ((handleTextmessage meClientId t2 send (handleTextmessage meClientId t1 send m e).1 e).1 =
          (handleTextmessage meClientId t2 send m e).1) ∧
      (Registry.has (handleTextmessage meClientId now send m e).1 e.invokerClid = true) ∧
      (∃ l, (handleTextmessage meClientId now send m e).2 =
          l ++ trySendMessage send e.invokerClid e.invokerNickname protectionAckText) := by
  intro meClientId now t1 t2 send m e h1 h2
  refine ⟨?_, ?_, ?_, ?_, ?_⟩
  · simp [handleTextmessage, h1, h2, addHours]
  · simp [handleTextmessage, h1, h2, addHours, Registry.lookup_set_self]
  · simp [handleTextmessage, h1, h2, Registry.set_set]
  · simp [handleTextmessage, h1, h2, Registry.has_set_self]
  · refine ⟨[Action.logDebug ("I saw a message from " ++ e.invokerNickname ++ ": " ++ e.msg),
      Action.logInfo ("Got protection request from user " ++ e.invokerNickname ++
        " with ID " ++ e.invokerClid ++ ".")], ?_⟩
    simp [handleTextmessage, h1, h2]

/-- Claim C6 witness: a concrete "!stop" message from user "u1" at instant
1000 leaves the registry mapping "u1" to 1000 + 10800000. -/
theorem claim_C6_witness :
    List.lookup "u1" (handleTextmessage "bot" 1000 sendAlwaysOk []
      ⟨TextMessageTargetMode.CLIENT, "u1", "Uli", "!stop"⟩).1 = some (1000 + 3 * 3600000) :=
  (claim_C6 "bot" 1000 0 0 sendAlwaysOk [] ⟨TextMessageTargetMode.CLIENT, "u1", "Uli", "!stop"⟩
    (by decide) (by decide)).2.1

/-- Claim C7 is contradicted by the code: the `client.message(msg)` call at
line 167 is not awaited, so when the notification send fails its rejection
escapes the try/catch of `trySendMessage` as an unhandled rejection — the
catch branch never runs for a send failure and nothing is logged at warning
level — while the move of the selected client still executes exactly once.
The try/catch with its dedicated warning message shows catching and logging
the failure is the intent, defeated by the missing await. -/
theorem claim_C7 :
    ∀ idletime m lobby send c err,
      send c.clid = Except.error err →
      c.cid ≠ lobby.cid →
      c.idleTime > idletime * 60 * 1000 →
      Registry.has m c.clid = false →
      List.count (Action.move c.clid lobby.cid) (idleMoveActions idletime m lobby send c) = 1 ∧
      Action.unhandledRejection err ∈ idleMoveActions idletime m lobby send c ∧
      (∀ s, Action.logWarn s ∉ idleMoveActions idletime m lobby send c) := by
  intro idletime m lobby send c err hfail h1 h2 h3
  have hact : idleMoveActions idletime m lobby send c =
      [Action.logInfo ("Client " ++ c.nickname ++
         " has been idle and will be moved to the Lobby.."),
       Action.logDebug ("Sending message to user " ++ c.nickname ++ ": " ++
         ("Ey " ++ c.nickname ++ ", idle mal hier nicht rum. Ab in die Lobby mit dir!")),
       Action.unhandledRejection err,
       Action.move c.clid lobby.cid] := by
    simp [idleMoveActions, trySendMessage, h1, h2, h3, hfail]
  rw [hact]
  refine ⟨?_, by simp, by intro s; simp⟩
  simp [List.count_cons]

/-- Claim C7 witness: with a send function that always fails, the concrete
idle client is still moved exactly once, the failure surfaces only as an
unhandled rejection, and no warning is logged. -/
theorem claim_C7_witness :
    List.count (Action.move "a" 7)
      (idleMoveActions 10 [] ⟨7, "Lobby"⟩ sendAlwaysFail ⟨"a", 3, 601000, "Al"⟩) = 1 ∧
    Action.unhandledRejection "boom" ∈
      idleMoveActions 10 [] ⟨7, "Lobby"⟩ sendAlwaysFail ⟨"a", 3, 601000, "Al"⟩ :=
  have h := claim_C7 10 [] ⟨7, "Lobby"⟩ sendAlwaysFail ⟨"a", 3, 601000, "Al"⟩ "boom"
    rfl (by decide) (by decide) rfl
  ⟨h.1, h.2.1⟩

/-- Claim C8: when the lobby lookup returns absent, the sweep cycle logs an
error and exits with code 1, and no move of any client is attempted. -/
theorem claim_C8 :
    ∀ idletime now m clients send,
      (setIntervalCallback idletime now m clients none send).2 =
          [Action.logError "Unable to find Lobby!", Action.exitProcess 1] ∧
      Action.exitProcess 1 ∈ (setIntervalCallback idletime now m clients none send).2 ∧
      (∀ clid ch, Action.move clid ch ∉ (setIntervalCallback idletime now m clients none send).2) := by
  intro idletime now m clients send
  refine ⟨rfl, by simp [setIntervalCallback], ?_⟩
  intro clid ch
  simp [setIntervalCallback]

/-- Claim C8 witness: a concrete cycle with an absent lobby and one idle
client emits exactly the error log and the exit, and no move of that client. -/
theorem claim_C8_witness :
    Action.move "a" 7 ∉
      (setIntervalCallback 10 0 [] [⟨"a", 3, 601000, "Al"⟩] none sendAlwaysOk).2 :=
  (claim_C8 10 0 [] [⟨"a", 3, 601000, "Al"⟩] sendAlwaysOk).2.2 "a" 7

/-- Claim C9: the close handler logs the loss (two warnings) and then calls
`reconnect` with attempt count -1 — the library encoding of no maximum retry
count — and a fixed 1000 ms delay; any reconnect action it emits has exactly
those arguments; the error handler only logs and never emits a reconnect. -/
theorem claim_C9 :
    ∀ err : String,
      (handleClose err).take 2 =
          [Action.logWarn err, Action.logWarn "Connection lost, trying to reconnect..."] ∧
      (handleClose err).get? 2 = some (Action.reconnect (-1) 1000) ∧
      (∀ a d, Action.reconnect a d ∈ handleClose err → a = -1 ∧ d = 1000) ∧
      handleError err = [Action.logError ("Something went wrong: " ++ err)] ∧
      (∀ a d, Action.reconnect a d ∉ handleError err) := by
  intro err
  refine ⟨rfl, rfl, ?_, rfl, ?_⟩
  · intro a d hmem
    simp [handleClose] at hmem
    exact ⟨hmem.1, hmem.2⟩
  · intro a d
    simp [handleError]

/-- Claim C9 witness: the only reconnect action emitted after a concrete
connection loss has attempt count -1 and delay 1000 ms. -/
theorem claim_C9_witness :
    Action.reconnect (-1) 1000 ∈ handleClose "socket closed" ∧
      ((-1 : Int) = -1 ∧ (1000 : Int) = 1000) :=
  ⟨by simp [handleClose],
   (claim_C9 "socket closed").2.2.1 (-1) 1000 (by simp [handleClose])⟩

/-! System events (for the registry lifecycle invariant) -/

/-- The events the process reacts to: the recurring `setInterval` tick and the
four subscribed TeamSpeak events.  The `clientdisconnect` subscription is
commented out in the source (lines 92-95), so a disconnect reaches no
handler. -/
inductive SysEvent where
  | timerTick (now : Timestamp) (clients : List Client) (lobbyLookup : Option Channel)
  | textmessage (now : Timestamp) (e : TextMessageEvent)
  | clientconnect (c : Client)
  | clientdisconnect (c : Client)
  | connectionClose (err : String)
  | serverError (err : String)

/-- Whether an event is the recurring timer tick. -/
def SysEvent.isTimerTick : SysEvent → Bool
  | SysEvent.timerTick _ _ _ => true
  | _ => false

/-- Effect of one event on the protection registry: the timer tick purges it,
a text message may grant protection, and every other event — including a
client disconnecting — leaves it untouched. -/
def stepRegistry (idletime : Int) (meClientId : ClientId) (send : SendOutcome)
    (ev : SysEvent) (m : Registry) : Registry :=
  match ev with
  | SysEvent.timerTick now clients lobbyLookup =>
      (setIntervalCallback idletime now m clients lobbyLookup send).1
  | SysEvent.textmessage now e => (handleTextmessage meClientId now send m e).1
  | SysEvent.clientconnect _ => m
  | SysEvent.clientdisconnect _ => m
  | SysEvent.connectionClose _ => m
  | SysEvent.serverError _ => m

/-- An event that inserts an entry for identity `k`: a text message passing
the handler guard, starting with "!stop", sent by `k`. -/
def isGrantEventFor (meClientId k : ClientId) : SysEvent → Prop
  | SysEvent.textmessage _ e =>
      textmessageReacts meClientId e = true ∧ jsStartsWith e.msg "!stop" = true ∧
        e.invokerClid = k
  | _ => False

lemma Registry.has_of_has_purge (now : Timestamp) (m : Registry) (k : ClientId)
    (h : Registry.has (purgeProtectedUsers now m) k = true) :
    Registry.has m k = true := by
  unfold purgeProtectedUsers at h
  exact Registry.has_of_has_filter m _ k h

/-- Claim C10: registry entries are inserted only by the protection command
handler and removed only by the timer tick purge — a client disconnect (which
reaches no handler) leaves the registry unchanged, no non-tick event removes
a key, a key survives any sequence of non-tick events, and any event that
makes an absent key present is a reacted-to "!stop" message from that very
identity. -/
theorem claim_C10 :
    ∀ idletime meClientId send,
      (∀ c m, stepRegistry idletime meClientId send (SysEvent.clientdisconnect c) m = m) ∧
      (∀ ev m k, SysEvent.isTimerTick ev = false → Registry.has m k = true →
        Registry.has (stepRegistry idletime meClientId send ev m) k = true) ∧
      (∀ (evs : List SysEvent) m k,
        (∀ ev ∈ evs, SysEvent.isTimerTick ev = false) → Registry.has m k = true →
        Registry.has
          (evs.foldl (fun acc ev => stepRegistry idletime meClientId send ev acc) m) k = true) ∧
      (∀ ev m k, Registry.has m k = false →
        Registry.has (stepRegistry idletime meClientId send ev m) k = true →
        isGrantEventFor meClientId k ev) := by
  intro idletime meClientId send
  have pres : ∀ ev m k, SysEvent.isTimerTick ev = false → Registry.has m k = true →
      Registry.has (stepRegistry idletime meClientId send ev m) k = true := by
    intro ev m k htk hhas
    cases ev with
    | timerTick now clients lobbyLookup => simp [SysEvent.isTimerTick] at htk
    | textmessage now e =>
        simp only [stepRegistry]
        unfold handleTextmessage
        by_cases hr : textmessageReacts meClientId e = true
        · rw [if_pos hr]
          by_cases hs : jsStartsWith e.msg "!stop" = true
          · rw [if_pos hs]
            exact Registry.has_set_of_has _ _ _ _ hhas
          · rw [if_neg hs]
            exact hhas
        · rw [if_neg hr]
          exact hhas
    | clientconnect c => exact hhas
    | clientdisconnect c => exact hhas
    | connectionClose e => exact hhas
    | serverError e => exact hhas
  refine ⟨fun c m => rfl, pres, ?_, ?_⟩
  · intro evs
    induction evs with
    | nil =>
        intro m k _ h
        exact h
    | cons ev rest ih =>
        intro m k hall hhas
        simp only [List.foldl_cons]
        exact ih _ k (fun e he => hall e (List.mem_cons_of_mem _ he))
          (pres ev m k (hall ev (List.mem_cons_self _ _)) hhas)
  · intro ev m k hno hyes
    cases ev with
    | timerTick now clients lobbyLookup =>
        exfalso
        cases lobbyLookup with
        | none =>
            simp only [stepRegistry, setIntervalCallback] at hyes
            rw [Registry.has_of_has_purge now m k hyes] at hno
            exact Bool.true_eq_false.mp hno
        | some lobby =>
            simp only [stepRegistry, setIntervalCallback] at hyes
            rw [Registry.has_of_has_purge now m k hyes] at hno
            exact Bool.true_eq_false.mp hno
    | textmessage now e =>
        simp only [stepRegistry] at hyes
        unfold handleTextmessage at hyes
        by_cases hr : textmessageReacts meClientId e = true
        · rw [if_pos hr] at hyes
          by_cases hs : jsStartsWith e.msg "!stop" = true
          · rw [if_pos hs] at hyes
            rcases Registry.eq_or_has_of_has_set m k e.invokerClid _ hyes with h | h
            · exact ⟨hr, hs, h.symm⟩
            · rw [h] at hno
              exact absurd hno (by simp)
          · rw [if_neg hs] at hyes
            rw [hyes] at hno
            exact absurd hno (by simp)
        · rw [if_neg hr] at hyes
          rw [hyes] at hno
          exact absurd hno (by simp)
    | clientconnect c =>
        simp only [stepRegistry] at hyes
        rw [hyes] at hno
        exact absurd hno (by simp)
    | clientdisconnect c =>
        simp only [stepRegistry] at hyes
        rw [hyes] at hno
        exact absurd hno (by simp)
    | connectionClose e =>
        simp only [stepRegistry] at hyes
        rw [hyes] at hno
        exact absurd hno (by simp)
    | serverError e =>
        simp only [stepRegistry] at hyes
        rw [hyes] at hno
        exact absurd hno (by simp)

/-- Claim C10 witness: a concrete protected identity "a" is still registered
after the client disconnect event for some other client. -/
theorem claim_C10_witness :
    Registry.has (stepRegistry 10 "bot" sendAlwaysOk
      (SysEvent.clientdisconnect ⟨"c", 1, 0, "n"⟩) [("a", 5)]) "a" = true :=
  (claim_C10 10 "bot" sendAlwaysOk).2.1 (SysEvent.clientdisconnect ⟨"c", 1, 0, "n"⟩)
    [("a", 5)] "a" rfl (by decide)

end Ts3Warden
